import Mathlib

/-!
Shallow embedding of the `esi_thermostat` Home Assistant integration
(`custom_components/esi_thermostat/{const,coordinator,climate,water_heater}.py`)
and verification of its specification claims.

Modelling conventions:
* JSON values are the inductive `JVal`; Python truthiness is `truthy`.
* Python exceptions are the inductive `PyErr`; fallible code returns `Except PyErr _`.
* Temperatures are rationals (`ℚ`); Python `int(x)` is `pyInt` (truncation toward zero).
* A dictionary field that the code reads with `d[k]` / `d.get(k)` and then parses with
  `float`/`int` inside a `try` block is modelled as `Option (Option _)`:
  `none` = key absent, `some none` = present but unparseable
  (the parse raises `TypeError`/`ValueError`), `some (some v)` = parses to `v`.
-/

/-- JSON values as delivered by `response.json()`.  Numbers are modelled as
integers, which covers every numeric field these claims touch (`statu` is a
bool, ids and temperatures are integers on the wire). -/
inductive JVal where
  | null : JVal
  | bool : Bool → JVal
  | str : String → JVal
  | num : Int → JVal
  | obj : List (String × JVal) → JVal
  | arr : List JVal → JVal

/-- Python exception classes that occur in the modelled code paths. -/
inductive PyErr where
  | valueError : PyErr
  | typeError : PyErr
  | keyError : PyErr
  | attributeError : PyErr
  | updateFailed : PyErr
  | clientError : PyErr
deriving DecidableEq, Repr

/-- Python truthiness of a JSON value (`if not data.get("statu")` etc.). -/
def truthy : JVal → Bool
  | .null => false
  | .bool b => b
  | .str s => !(s == "")
  | .num n => !(n == 0)
  | .obj fs => !fs.isEmpty
  | .arr xs => !xs.isEmpty

/-- Key lookup in a JSON object field list (first match, as in a Python dict). -/
def jLookup (fs : List (String × JVal)) (k : String) : Option JVal :=
  (fs.find? (fun p => p.1 == k)).map (fun p => p.2)

/-- `d.get(k, default)` on a JSON value: returns the default when the key is
absent, raises `AttributeError` when the receiver is not a dict. -/
def pyGetD (v : JVal) (k : String) (d : JVal) : Except PyErr JVal :=
  match v with
  | .obj fs => .ok ((jLookup fs k).getD d)
  | _ => .error .attributeError

/-- `d[k]` on a JSON value: `KeyError` when the key is absent, `TypeError`
when the receiver is not a dict. -/
def pySubscript (v : JVal) (k : String) : Except PyErr JVal :=
  match v with
  | .obj fs =>
    match jLookup fs k with
    | some w => .ok w
    | none => .error .keyError
  | _ => .error .typeError

/-- `k in d` for a JSON object (`"devices" not in data`). -/
def jHasKey (v : JVal) (k : String) : Bool :=
  match v with
  | .obj fs => (jLookup fs k).isSome
  | _ => false

/-- `not self._token` on an optional stored JSON value (`None` or falsy). -/
def pyNotOpt (t : Option JVal) : Bool :=
  match t with
  | none => true
  | some v => !(truthy v)

/-- Python `int(q)` on a rational: truncation toward zero. -/
def pyInt (q : ℚ) : Int :=
  if 0 ≤ q.num then Int.ofNat (q.num.toNat / q.den)
  else -(Int.ofNat ((-q.num).toNat / q.den))

/-- Python `x or default` on an optional float: the default is used both when
`x` is `None` and when it is the falsy float `0.0`. -/
def pyOrFloat (x : Option ℚ) (d : ℚ) : ℚ :=
  match x with
  | some q => if q = 0 then d else q
  | none => d

/-! ### Constants (`const.py`) -/

/-- `const.py`: `MAX_HIGH_FREQUENCY_POLL_COUNT = 10`. -/
def MAX_HIGH_FREQUENCY_POLL_COUNT : Nat := 10

def CLIMATE_WORK_MODE_AUTO : Int := 0
def CLIMATE_WORK_MODE_AUTO_TEMP_OVERRIDE : Int := 1
def CLIMATE_WORK_MODE_OFF : Int := 4
def CLIMATE_WORK_MODE_MANUAL : Int := 5

def WATERHEATER_WORK_MODE_AUTO : Int := 0
def WATERHEATER_WORK_MODE_OFF : Int := 1
def WATERHEATER_WORK_MODE_MANUAL : Int := 2
def WATERHEATER_WORK_MODE_AUTO_TEMP_OVERRIDE : Int := 4
def WATERHEATER_WORK_MODE_BOOST : Int := 5

/-! ### HTTP layer (`coordinator.py`) -/

/-- An HTTP response as seen by `ESIDataUpdateCoordinator.json`:
its status code, and its body if it parses as JSON (`none` when
`response.json()` raises). -/
structure ApiResponse where
  status : Nat
  body : Option JVal

/-- `ESIDataUpdateCoordinator.json` (coordinator.py:90-109): a non-200 status
raises `ValueError`, a body that does not parse as JSON raises `UpdateFailed`,
otherwise the parsed value is returned. -/
def coordJson (r : ApiResponse) : Except PyErr JVal :=
  if r.status ≠ 200 then .error .valueError
  else
    match r.body with
    | some v => .ok v
    | none => .error .updateFailed

/-! ### Coordinator polling state (`coordinator.py`) -/

/-- The coordinator fields that the refresh-interval state machine touches.
Intervals are in seconds: `timedelta(minutes=m)` is `60 * m`,
`timedelta(seconds=1)` is `1`. -/
structure CoordState where
  update_interval : Nat
  normal_update_interval : Nat
  update_retry_count : Nat
  device_still_wants_refresh : Bool
deriving DecidableEq, Repr

/-- `ESIDataUpdateCoordinator.async_request_refresh` (coordinator.py:55-62):
sets the retry count to `MAX_HIGH_FREQUENCY_POLL_COUNT` and the update
interval to 1 second (then delegates to the base class). -/
def asyncRequestRefresh (c : CoordState) : CoordState :=
  { c with
    update_retry_count := MAX_HIGH_FREQUENCY_POLL_COUNT
    update_interval := 1 }

/-- `ESIDataUpdateCoordinator.async_refresh` (coordinator.py:64-79).
`wants` is whether some entity calls `set_device_still_wants_refresh` during
the inner `super().async_refresh()`.  The statement
`super().update_interval = self._normal_update_interval` (lines 72 and 79)
is an attribute assignment on a `super()` object, which raises
`AttributeError` in Python; the returned `Option PyErr` carries that
exception, and the state records every field mutation made before it. -/
def asyncRefresh (c : CoordState) (wants : Bool) : CoordState × Option PyErr :=
  let c := { c with device_still_wants_refresh := false }
  if c.update_retry_count ≥ 1 then
    let c := { c with update_retry_count := c.update_retry_count - 1 }
    if c.update_retry_count = 0 then
      (c, some .attributeError)
    else
      (c, none)
  else
    let c := { c with device_still_wants_refresh := wants }
    if !c.device_still_wants_refresh then
      let c := { c with update_retry_count := 0 }
      (c, some .attributeError)
    else
      (c, none)

/-! ### Login and device list (`coordinator.py`) -/

/-- The credentials stored by a successful login.  The code stores
`self._user_id = str(data["user"].get("id", ""))`; we keep the value passed
to `str(...)`. -/
structure LoginInfo where
  token : JVal
  user_id : JVal

/-- `ESIDataUpdateCoordinator._async_login` (coordinator.py:142-156), applied
to the login response: raises `UpdateFailed` when the response lacks a truthy
`statu` or a truthy token at `user.token` (with Python short-circuit
evaluation of the `or`), otherwise returns the token and user id to store. -/
def asyncLogin (resp : ApiResponse) : Except PyErr LoginInfo := do
  let data ← coordJson resp
  let statu ← pyGetD data "statu" .null
  if !truthy statu then throw .updateFailed
  let user ← pyGetD data "user" (.obj [])
  let token ← pyGetD user "token" .null
  if !truthy token then throw .updateFailed
  let userObj ← pySubscript data "user"
  let tok ← pySubscript userObj "token"
  let idv ← pyGetD userObj "id" (.str "")
  return ⟨tok, idv⟩

/-- `ESIDataUpdateCoordinator._async_get_devices` (coordinator.py:158-182),
applied to the device-list response: raises `ValueError` when no token is
stored, raises `UpdateFailed` when the response lacks a truthy `statu` or has
no `devices` key, otherwise returns `data["devices"]` unchanged. -/
def asyncGetDevices (token : Option JVal) (resp : ApiResponse) :
    Except PyErr JVal := do
  if pyNotOpt token then throw .valueError
  let data ← coordJson resp
  let statu ← pyGetD data "statu" .null
  if !truthy statu then throw .updateFailed
  if !jHasKey data "devices" then throw .updateFailed
  pySubscript data "devices"

/-- The coordinator's authentication fields (`_token`, `_user_id`). -/
structure CoordAuth where
  token : Option JVal
  user_id : Option JVal

/-- `ESIDataUpdateCoordinator._async_update_data` (coordinator.py:128-140):
logs in when no token is stored, fetches the device list, wraps every
exception in `UpdateFailed`, and on success returns `{"devices": devices}`
together with the updated auth state. -/
def asyncUpdateData (auth : CoordAuth) (loginResp devResp : ApiResponse) :
    Except PyErr (CoordAuth × JVal) :=
  let step1 : Except PyErr CoordAuth :=
    if pyNotOpt auth.token then
      match asyncLogin loginResp with
      | .ok li => .ok ⟨some li.token, some li.user_id⟩
      | .error e => .error e
    else
      .ok auth
  match step1 with
  | .error _ => .error .updateFailed
  | .ok auth2 =>
    match asyncGetDevices auth2.token devResp with
    | .error _ => .error .updateFailed
    | .ok devs => .ok (auth2, .obj [("devices", devs)])

/-- `ESIDataUpdateCoordinator.async_set_work_mode` (coordinator.py:184-214),
applied to the set-work-mode response: raises `ValueError` when no token is
stored, parses the response with `json`, and when `statu` is falsy only logs
the error — it returns normally either way. -/
def asyncSetWorkMode (token : Option JVal) (resp : ApiResponse) :
    Except PyErr Unit := do
  if pyNotOpt token then throw .valueError
  let data ← coordJson resp
  let _statu ← pyGetD data "statu" .null
  return ()

/-! ### Device records and `ESIDataUpdateCoordinator.get` -/

/-- A device record from the vendor device list, restricted to the fields the
integration reads.  Field names keep the vendor spellings used in `const.py`
(`inside_temparature`, `current_temprature`).  The two temperature fields and
`work_mode` follow the `Option (Option _)` convention described at the top of
the file. -/
structure DeviceRecord where
  device_id : String
  device_type : String
  inside_temparature : Option (Option ℚ)
  current_temprature : Option (Option ℚ)
  work_mode : Option (Option Int)
deriving DecidableEq, Repr

/-- The filter predicate of `ESIDataUpdateCoordinator.get`
(coordinator.py:111-126): the Python expression
`(valid != [] and type in valid) ^ (invalid != [] and type not in invalid)`. -/
def coordGetPred (valid invalid : List String) (d : DeviceRecord) : Bool :=
  xor (!valid.isEmpty && valid.contains d.device_type)
      (!invalid.isEmpty && !(invalid.contains d.device_type))

/-- `ESIDataUpdateCoordinator.get` over the device list held in the
coordinator data. -/
def coordGet (devices : List DeviceRecord) (valid invalid : List String) :
    List DeviceRecord :=
  devices.filter (coordGetPred valid invalid)

/-! ### Climate entity (`climate.py`) -/

/-- The host-framework HVAC modes that `EsiClimate` uses
(`_attr_hvac_modes = [HEAT, AUTO, OFF]`). -/
inductive HVACMode where
  | heat : HVACMode
  | auto : HVACMode
  | off : HVACMode
deriving DecidableEq, Repr

/-- `EsiClimate.WORK_MODE_TO_HVAC` (climate.py:86-91), as a partial map the
code queries with `.get`. -/
def WORK_MODE_TO_HVAC (w : Int) : Option HVACMode :=
  if w = CLIMATE_WORK_MODE_MANUAL then some .heat
  else if w = CLIMATE_WORK_MODE_AUTO then some .auto
  else if w = CLIMATE_WORK_MODE_AUTO_TEMP_OVERRIDE then some .auto
  else if w = CLIMATE_WORK_MODE_OFF then some .off
  else none

/-- `EsiClimate.HVAC_TO_WORK_MODE` (climate.py:93-97). -/
def HVAC_TO_WORK_MODE (m : HVACMode) : Option Int :=
  match m with
  | .heat => some CLIMATE_WORK_MODE_MANUAL
  | .auto => some CLIMATE_WORK_MODE_AUTO
  | .off => some CLIMATE_WORK_MODE_OFF

/-- The mutable per-entity fields of `EsiClimate` that the claims touch. -/
structure ClimateState where
  last_confirmed_temp : Option ℚ
  last_confirmed_mode : Option HVACMode
  pending_temperature : Option ℚ
  pending_hvac_mode : Option HVACMode
  is_mode_change : Bool
deriving DecidableEq, Repr

/-- The device fallback of `EsiClimate.hvac_mode` (climate.py:176-185): the
mode derived from the device record's `work_mode`.  An absent field means
`CLIMATE_WORK_MODE_AUTO`; an unparseable field raises
`TypeError`/`ValueError`, caught to `HEAT`; an unmapped integer defaults to
`HEAT`; a missing device gives `HEAT`. -/
def climateDeviceHvacMode (dev : Option DeviceRecord) : HVACMode :=
  match dev with
  | some d =>
    match d.work_mode with
    | none => (WORK_MODE_TO_HVAC CLIMATE_WORK_MODE_AUTO).getD .heat
    | some none => .heat
    | some (some w) => (WORK_MODE_TO_HVAC w).getD .heat
  | none => .heat

/-- The device fallback shared verbatim by the target-temperature getters
(climate.py:224-230, water_heater.py:226-236): the device's
`current_temprature` divided by 10.  An unparseable value is caught to
`None`; an absent key raises `KeyError` (not in the caught classes). -/
def deviceTargetTempDiv10 (dev : Option DeviceRecord) : Except PyErr (Option ℚ) :=
  match dev with
  | none => .ok none
  | some d =>
    match d.current_temprature with
    | none => .error .keyError
    | some none => .ok none
    | some (some q) => .ok (some (q / 10))

/-- `EsiClimate.hvac_mode` (climate.py:164-185): pending mode if set, else
last confirmed mode, else the mode derived from the device record. -/
def climateHvacMode (st : ClimateState) (dev : Option DeviceRecord) : HVACMode :=
  match st.pending_hvac_mode with
  | some m => m
  | none =>
    match st.last_confirmed_mode with
    | some m => m
    | none => climateDeviceHvacMode dev

/-- `EsiClimate.current_temperature` (climate.py:203-211): the device's
`inside_temparature` divided by 10; an unparseable value is caught to `None`,
but an absent key raises `KeyError` (not in the caught classes). -/
def climateCurrentTemperature (dev : Option DeviceRecord) :
    Except PyErr (Option ℚ) :=
  match dev with
  | none => .ok none
  | some d =>
    match d.inside_temparature with
    | none => .error .keyError
    | some none => .ok none
    | some (some q) => .ok (some (q / 10))

/-- `EsiClimate.target_temperature` (climate.py:213-230): pending temperature
if set, else last confirmed temperature, else the device's
`current_temprature` divided by 10 (unparseable caught to `None`, absent key
raises `KeyError`), else `None`. -/
def climateTargetTemperature (st : ClimateState) (dev : Option DeviceRecord) :
    Except PyErr (Option ℚ) :=
  match st.pending_temperature with
  | some t => .ok (some t)
  | none =>
    match st.last_confirmed_temp with
    | some t => .ok (some t)
    | none => deviceTargetTempDiv10 dev

/-- `EsiClimate.async_set_hvac_mode` (climate.py:232-248), up to the UI write
and the enqueue: records the pending mode, marks a mode change, and pins the
pending temperature to `5.0` for `OFF` (clearing it for the other modes). -/
def climateSetHvacMode (st : ClimateState) (m : HVACMode) : ClimateState :=
  let st := { st with pending_hvac_mode := some m, is_mode_change := true }
  if m = .off then { st with pending_temperature := some 5 }
  else { st with pending_temperature := none }

/-- The body of `EsiClimate._async_perform_update` up to the
`async_set_work_mode` call (climate.py:295-331): computes the work mode and
API temperature it will send.  `ok none` is the early return when no pending
mode is set; `error` is an exception escaping the body before the send (the
uncaught `KeyError` from `device[ATTR_TARGET_TEMPERATURE]` at line 308 when
the key is absent).  The `or 20.0` fallbacks use Python truthiness
(`pyOrFloat`). -/
def climateComputeRequest (st : ClimateState) (dev : Option DeviceRecord) :
    Except PyErr (Option (Int × Option Int)) := do
  let target0 := st.pending_temperature
  match st.pending_hvac_mode with
  | none => return none
  | some tmode =>
    let target : Option ℚ ←
      if tmode = .auto ∧ target0 = none then
        match dev with
        | some d =>
          match d.current_temprature with
          | none => throw .keyError
          | some none => pure (some (pyOrFloat st.last_confirmed_temp 20))
          | some (some q) => pure (some (q / 10))
        | none => pure (some (pyOrFloat st.last_confirmed_temp 20))
      else
        pure target0
    let work_mode : Int :=
      if tmode = .auto then
        if !st.is_mode_change ∧ climateHvacMode st dev = .auto then
          CLIMATE_WORK_MODE_AUTO_TEMP_OVERRIDE
        else
          CLIMATE_WORK_MODE_AUTO
      else
        (HVAC_TO_WORK_MODE tmode).getD CLIMATE_WORK_MODE_MANUAL
    let api_temp : Option Int := target.map (fun t => pyInt (t * 10))
    return some (work_mode, api_temp)

/-- The rollback performed by the `except` branch of
`_async_perform_update` (climate.py:350-356): clear both pending fields and
the mode-change flag. -/
def climateClearPending (st : ClimateState) : ClimateState :=
  { st with
    pending_temperature := none
    pending_hvac_mode := none
    is_mode_change := false }

/-- `EsiClimate._async_perform_update` (climate.py:293-359).  `setResult` is
the outcome of the `coordinator.async_set_work_mode` call (the only awaited
call in the body that can raise).  Returns the new entity state and whether
`coordinator.async_request_refresh` was requested: the success path requests
it after the send, and the `except` branch clears the pending state and
requests it as well. -/
def climatePerformUpdate (st : ClimateState) (dev : Option DeviceRecord)
    (setResult : Except PyErr Unit) : ClimateState × Bool :=
  match climateComputeRequest st dev with
  | .ok none => (st, false)
  | .ok (some _) =>
    match setResult with
    | .ok _ => ({ st with is_mode_change := false }, true)
    | .error _ => (climateClearPending st, true)
  | .error _ => (climateClearPending st, true)

/-! ### Water heater entity (`water_heater.py`) -/

/-- `EsiWaterHeater._attr_min_temp = 25.0`. -/
def WATERHEATER_MIN_TEMP : ℚ := 25

/-- The mutable per-entity fields of `EsiWaterHeater` that the claims touch. -/
structure WaterHeaterState where
  last_confirmed_target_temp : Option ℚ
  last_confirmed_work_mode : Option Int
  pending_target_temperature : Option ℚ
  pending_work_mode : Option Int
  is_state_change : Bool
deriving DecidableEq, Repr

/-- `EsiWaterHeater.target_temperature` (water_heater.py:215-236): pending
temperature if set, else last confirmed temperature, else the device's
`current_temprature` divided by 10 (which the property also stores back into
`_last_confirmed_target_temp`; unparseable caught to `None`, absent key
raises `KeyError`), else `None`. -/
def whTargetTemperature (st : WaterHeaterState) (dev : Option DeviceRecord) :
    Except PyErr (Option ℚ) :=
  match st.pending_target_temperature with
  | some t => .ok (some t)
  | none =>
    match st.last_confirmed_target_temp with
    | some t => .ok (some t)
    | none => deviceTargetTempDiv10 dev

/-- The rollback performed by the `except` branch of
`EsiWaterHeater._async_perform_update` (water_heater.py:366-372): clear both
pending fields and the state-change flag. -/
def whClearPending (st : WaterHeaterState) : WaterHeaterState :=
  { st with
    pending_target_temperature := none
    pending_work_mode := none
    is_state_change := false }

/-- `EsiWaterHeater._async_perform_update` (water_heater.py:320-375).
`setResult` is the outcome of the `coordinator.async_set_work_mode` call (the
only statement in the body that can raise).  Returns the new entity state,
the `(work_mode, api_temp)` pair passed to `async_set_work_mode` (`none` on
the early return when no pending work mode is set), and whether
`coordinator.async_request_refresh` was requested.  The `OFF` branch discards
both the pending and the last-confirmed temperature and sends `None`
(replaced by `_attr_min_temp`); the `AUTO` branch sends the last-confirmed
temperature and also discards both stored temperatures. -/
def whPerformUpdate (st : WaterHeaterState) (setResult : Except PyErr Unit) :
    WaterHeaterState × Option (Int × Int) × Bool :=
  match st.pending_work_mode with
  | none => (st, none, false)
  | some twm =>
    let stTarget :=
      if twm = WATERHEATER_WORK_MODE_OFF then
        ({ st with
            pending_target_temperature := none
            last_confirmed_target_temp := none },
         (none : Option ℚ))
      else if twm = WATERHEATER_WORK_MODE_AUTO then
        ({ st with
            pending_target_temperature := none
            last_confirmed_target_temp := none },
         st.last_confirmed_target_temp)
      else
        (st, st.pending_target_temperature)
    let st1 := stTarget.1
    let target : ℚ := stTarget.2.getD WATERHEATER_MIN_TEMP
    let api_temp : Int := pyInt (target * 10)
    match setResult with
    | .ok _ => ({ st1 with is_state_change := false }, some (twm, api_temp), true)
    | .error _ => (whClearPending st1, some (twm, api_temp), true)

/-! ## Claims -/

/-- C1 (code bug): the spec says that after an entity requests a refresh
(`update_interval` set to 1 second, retry count set to
`MAX_HIGH_FREQUENCY_POLL_COUNT = 10`), the refresh cycle in which the retry
count reaches zero — or in which no device still wants a refresh — restores
`update_interval` to the configured normal interval.  The code agrees on the
request side, but the restore statement
`super().update_interval = self._normal_update_interval`
(coordinator.py:72,79) is an attribute assignment on a `super()` object,
which raises `AttributeError`, so the interval is never restored: with a
3-minute normal interval (180 s), the cycle where the count reaches zero
ends with the interval still at 1 second and an `AttributeError`, and so
does a cycle with a zero retry count and no device wanting a refresh. -/
theorem esi_C1_interval_restore_bug :
    asyncRequestRefresh ⟨180, 180, 0, false⟩ = ⟨1, 180, 10, false⟩
    ∧ asyncRefresh ⟨1, 180, 1, false⟩ false
        = (⟨1, 180, 0, false⟩, some .attributeError)
    ∧ asyncRefresh ⟨1, 180, 0, false⟩ false
        = (⟨1, 180, 0, false⟩, some .attributeError)
    ∧ asyncRefresh ⟨1, 180, 5, false⟩ false = (⟨1, 180, 4, false⟩, none)
    ∧ (asyncRefresh ⟨1, 180, 1, false⟩ false).1.update_interval ≠ 180 := by
  decide

/-- C8: the climate entity maps vendor work modes to host HVAC modes as
manual (5) → HEAT, auto (0) → AUTO, auto-temp-override (1) → AUTO,
off (4) → OFF; a device record with no `work_mode` field is treated as auto
(hence AUTO), and any unrecognised work-mode integer is reported as HEAT
(stated on `hvac_mode` with no pending and no confirmed mode, so the
device-derived path is taken). -/
theorem esi_C8_work_mode_mapping (st : ClimateState) (d : DeviceRecord)
    (w : Int) (hp : st.pending_hvac_mode = none)
    (hc : st.last_confirmed_mode = none)
    (h0 : w ≠ 0) (h1 : w ≠ 1) (h4 : w ≠ 4) (h5 : w ≠ 5) :
    climateHvacMode st (some { d with work_mode := some (some 5) }) = .heat
    ∧ climateHvacMode st (some { d with work_mode := some (some 0) }) = .auto
    ∧ climateHvacMode st (some { d with work_mode := some (some 1) }) = .auto
    ∧ climateHvacMode st (some { d with work_mode := some (some 4) }) = .off
    ∧ climateHvacMode st (some { d with work_mode := none }) = .auto
    ∧ climateHvacMode st (some { d with work_mode := some (some w) }) = .heat := by
  refine ⟨?_, ?_, ?_, ?_, ?_, ?_⟩ <;>
    simp [climateHvacMode, hp, hc, climateDeviceHvacMode, WORK_MODE_TO_HVAC,
      CLIMATE_WORK_MODE_MANUAL, CLIMATE_WORK_MODE_AUTO,
      CLIMATE_WORK_MODE_AUTO_TEMP_OVERRIDE, CLIMATE_WORK_MODE_OFF,
      h0, h1, h4, h5]

/-- Witness for C8 at concrete inputs: the all-`none` entity state, a
concrete device record, and the unrecognised work mode 7. -/
theorem esi_C8_work_mode_mapping_witness :
    climateHvacMode ⟨none, none, none, none, false⟩
        (some ⟨"id1", "80", none, none, some (some 5)⟩) = .heat
    ∧ climateHvacMode ⟨none, none, none, none, false⟩
        (some ⟨"id1", "80", none, none, none⟩) = .auto
    ∧ climateHvacMode ⟨none, none, none, none, false⟩
        (some ⟨"id1", "80", none, none, some (some 7)⟩) = .heat := by
  have h := esi_C8_work_mode_mapping ⟨none, none, none, none, false⟩
    ⟨"id1", "80", none, none, none⟩ 7 rfl rfl
    (by decide) (by decide) (by decide) (by decide)
  exact ⟨h.1, h.2.2.2.2.1, h.2.2.2.2.2⟩

/-- C9: `ESIDataUpdateCoordinator.get` over the coordinator's device list:
with no included types and a non-empty excluded list it returns exactly the
devices whose type is not excluded; with a non-empty included list and no
excluded types it returns exactly the devices whose type is included; with
both lists empty it returns the empty list. -/
theorem esi_C9_get_device_filter (devs : List DeviceRecord)
    (inc exc : List String) :
    (exc ≠ [] →
      coordGet devs [] exc
        = devs.filter (fun d => !(exc.contains d.device_type)))
    ∧ (inc ≠ [] →
      coordGet devs inc []
        = devs.filter (fun d => inc.contains d.device_type))
    ∧ coordGet devs [] [] = [] := by
  refine ⟨?_, ?_, ?_⟩
  · intro h
    unfold coordGet
    apply List.filter_congr
    intro d _
    cases exc with
    | nil => exact absurd rfl h
    | cons a tl => simp [coordGetPred]
  · intro h
    unfold coordGet
    apply List.filter_congr
    intro d _
    cases inc with
    | nil => exact absurd rfl h
    | cons a tl => simp [coordGetPred]
  · simp [coordGet, coordGetPred]

/-- Witness for C9 on a concrete two-device list: the water-heater exclusion
used by `climate.async_setup_entry` keeps the type-"80" device, the
water-heater inclusion used by `water_heater.async_setup_entry` keeps the
type-"81" device, and the empty/empty call returns nothing. -/
theorem esi_C9_get_device_filter_witness :
    coordGet [⟨"c1", "80", none, none, none⟩, ⟨"w1", "81", none, none, none⟩]
        [] ["81"] = [⟨"c1", "80", none, none, none⟩]
    ∧ coordGet [⟨"c1", "80", none, none, none⟩, ⟨"w1", "81", none, none, none⟩]
        ["81"] [] = [⟨"w1", "81", none, none, none⟩]
    ∧ coordGet [⟨"c1", "80", none, none, none⟩, ⟨"w1", "81", none, none, none⟩]
        [] [] = [] := by
  have h := esi_C9_get_device_filter
    [⟨"c1", "80", none, none, none⟩, ⟨"w1", "81", none, none, none⟩]
    ["81"] ["81"]
  refine ⟨(h.1 (by decide)).trans (by decide),
    (h.2.1 (by decide)).trans (by decide), h.2.2⟩

/-- C10: turning a device off forces its minimum temperature.  Climate:
`async_set_hvac_mode(OFF)` pins the pending temperature to 5.0 (the climate
minimum), `target_temperature` then reports 5.0, and the computed write sends
work mode `CLIMATE_WORK_MODE_OFF` with API temperature `int(5.0 * 10) = 50`.
Water heater: a queued write with pending work mode
`WATERHEATER_WORK_MODE_OFF` discards both the pending and the last-confirmed
temperature and sends API temperature `int(25.0 * 10) = 250` (the
water-heater minimum), whatever the outcome of the send. -/
theorem esi_C10_off_forces_minimum (st : ClimateState)
    (dev : Option DeviceRecord) (wst : WaterHeaterState)
    (r : Except PyErr Unit)
    (hw : wst.pending_work_mode = some WATERHEATER_WORK_MODE_OFF) :
    (climateSetHvacMode st .off).pending_temperature = some 5
    ∧ climateTargetTemperature (climateSetHvacMode st .off) dev = .ok (some 5)
    ∧ climateComputeRequest (climateSetHvacMode st .off) dev
        = .ok (some (CLIMATE_WORK_MODE_OFF, some 50))
    ∧ (whPerformUpdate wst r).2.1 = some (WATERHEATER_WORK_MODE_OFF, 250)
    ∧ (whPerformUpdate wst r).1.pending_target_temperature = none
    ∧ (whPerformUpdate wst r).1.last_confirmed_target_temp = none := by
  refine ⟨?_, ?_, ?_, ?_, ?_, ?_⟩
  · simp [climateSetHvacMode]
  · simp [climateSetHvacMode, climateTargetTemperature]
  · simp +decide [climateSetHvacMode, climateComputeRequest,
      HVAC_TO_WORK_MODE, CLIMATE_WORK_MODE_OFF]
    norm_num [pyInt]
    rfl
  all_goals
    cases r <;>
      simp +decide [whPerformUpdate, hw, whClearPending,
        WATERHEATER_WORK_MODE_OFF, WATERHEATER_MIN_TEMP] <;>
      norm_num [pyInt]

/-- Witness for C10: a concrete climate state and a concrete water-heater
state with a pending OFF work mode and a failing send. -/
theorem esi_C10_off_forces_minimum_witness :
    (climateSetHvacMode ⟨some 19, some .heat, some 21, some .heat, false⟩
        .off).pending_temperature = some 5
    ∧ climateComputeRequest
        (climateSetHvacMode ⟨some 19, some .heat, some 21, some .heat, false⟩
          .off) none = .ok (some (CLIMATE_WORK_MODE_OFF, some 50))
    ∧ (whPerformUpdate ⟨some 40, some 2, some 55, some 1, false⟩
        (.error .clientError)).2.1 = some (WATERHEATER_WORK_MODE_OFF, 250) := by
  have h := esi_C10_off_forces_minimum
    ⟨some 19, some .heat, some 21, some .heat, false⟩ none
    ⟨some 40, some 2, some 55, some 1, false⟩ (.error .clientError) rfl
  exact ⟨h.1, h.2.2.1, h.2.2.2.1⟩

/-- C4: reported values prefer "what I asked for" over "what the server last
reported": the climate entity's `hvac_mode` and `target_temperature` return
the pending value when one is set, otherwise the last server-confirmed value,
otherwise a value derived from the device record; the water heater's
`target_temperature` obeys the same preference order. -/
theorem esi_C4_pending_over_confirmed_over_device (cst : ClimateState)
    (wst : WaterHeaterState) (dev : Option DeviceRecord) :
    (∀ m, cst.pending_hvac_mode = some m → climateHvacMode cst dev = m)
    ∧ (∀ m, cst.pending_hvac_mode = none → cst.last_confirmed_mode = some m →
        climateHvacMode cst dev = m)
    ∧ (cst.pending_hvac_mode = none → cst.last_confirmed_mode = none →
        climateHvacMode cst dev = climateDeviceHvacMode dev)
    ∧ (∀ t, cst.pending_temperature = some t →
        climateTargetTemperature cst dev = .ok (some t))
    ∧ (∀ t, cst.pending_temperature = none → cst.last_confirmed_temp = some t →
        climateTargetTemperature cst dev = .ok (some t))
    ∧ (cst.pending_temperature = none → cst.last_confirmed_temp = none →
        climateTargetTemperature cst dev = deviceTargetTempDiv10 dev)
    ∧ (∀ t, wst.pending_target_temperature = some t →
        whTargetTemperature wst dev = .ok (some t))
    ∧ (∀ t, wst.pending_target_temperature = none →
        wst.last_confirmed_target_temp = some t →
        whTargetTemperature wst dev = .ok (some t))
    ∧ (wst.pending_target_temperature = none →
        wst.last_confirmed_target_temp = none →
        whTargetTemperature wst dev = deviceTargetTempDiv10 dev) := by
  refine ⟨?_, ?_, ?_, ?_, ?_, ?_, ?_, ?_, ?_⟩
  · intro m hm
    simp [climateHvacMode, hm]
  · intro m hp hm
    simp [climateHvacMode, hp, hm]
  · intro hp hm
    simp [climateHvacMode, hp, hm]
  · intro t ht
    simp [climateTargetTemperature, ht]
  · intro t hp ht
    simp [climateTargetTemperature, hp, ht]
  · intro hp ht
    simp [climateTargetTemperature, hp, ht]
  · intro t ht
    simp [whTargetTemperature, ht]
  · intro t hp ht
    simp [whTargetTemperature, hp, ht]
  · intro hp ht
    simp [whTargetTemperature, hp, ht]

/-- Witness for C4: three concrete climate states (pending set, pending
cleared with a confirmed value, both cleared with a device record) and the
analogous water-heater states. -/
theorem esi_C4_pending_over_confirmed_over_device_witness :
    climateHvacMode ⟨some 19, some .auto, some 21, some .heat, false⟩
        (some ⟨"id1", "80", some (some 185), some (some 200), some (some 0)⟩)
      = .heat
    ∧ climateHvacMode ⟨some 19, some .auto, none, none, false⟩
        (some ⟨"id1", "80", some (some 185), some (some 200), some (some 0)⟩)
      = .auto
    ∧ climateHvacMode ⟨none, none, none, none, false⟩
        (some ⟨"id1", "80", some (some 185), some (some 200), some (some 0)⟩)
      = climateDeviceHvacMode
          (some ⟨"id1", "80", some (some 185), some (some 200), some (some 0)⟩)
    ∧ climateTargetTemperature ⟨some 19, some .auto, some 21, some .heat, false⟩
        none = .ok (some 21)
    ∧ climateTargetTemperature ⟨some 19, some .auto, none, none, false⟩ none
      = .ok (some 19)
    ∧ climateTargetTemperature ⟨none, none, none, none, false⟩
        (some ⟨"id1", "80", some (some 185), some (some 200), some (some 0)⟩)
      = deviceTargetTempDiv10
          (some ⟨"id1", "80", some (some 185), some (some 200), some (some 0)⟩)
    ∧ whTargetTemperature ⟨some 40, some 2, some 55, some 2, false⟩ none
      = .ok (some 55)
    ∧ whTargetTemperature ⟨some 40, some 2, none, none, false⟩ none
      = .ok (some 40)
    ∧ whTargetTemperature ⟨none, none, none, none, false⟩ none
      = deviceTargetTempDiv10 none := by
  refine ⟨?_, ?_, ?_, ?_, ?_, ?_, ?_, ?_, ?_⟩
  · exact (esi_C4_pending_over_confirmed_over_device
      ⟨some 19, some .auto, some 21, some .heat, false⟩
      ⟨some 40, some 2, some 55, some 2, false⟩
      (some ⟨"id1", "80", some (some 185), some (some 200), some (some 0)⟩)).1
      .heat rfl
  · exact (esi_C4_pending_over_confirmed_over_device
      ⟨some 19, some .auto, none, none, false⟩
      ⟨some 40, some 2, some 55, some 2, false⟩
      (some ⟨"id1", "80", some (some 185), some (some 200), some (some 0)⟩)).2.1
      .auto rfl rfl
  · exact (esi_C4_pending_over_confirmed_over_device
      ⟨none, none, none, none, false⟩ ⟨some 40, some 2, some 55, some 2, false⟩
      (some ⟨"id1", "80", some (some 185), some (some 200), some (some 0)⟩)).2.2.1
      rfl rfl
  · exact (esi_C4_pending_over_confirmed_over_device
      ⟨some 19, some .auto, some 21, some .heat, false⟩
      ⟨some 40, some 2, some 55, some 2, false⟩ none).2.2.2.1 21 rfl
  · exact (esi_C4_pending_over_confirmed_over_device
      ⟨some 19, some .auto, none, none, false⟩
      ⟨some 40, some 2, some 55, some 2, false⟩ none).2.2.2.2.1 19 rfl rfl
  · exact (esi_C4_pending_over_confirmed_over_device
      ⟨none, none, none, none, false⟩ ⟨some 40, some 2, some 55, some 2, false⟩
      (some ⟨"id1", "80", some (some 185), some (some 200), some (some 0)⟩)).2.2.2.2.2.1
      rfl rfl
  · exact (esi_C4_pending_over_confirmed_over_device
      ⟨none, none, none, none, false⟩ ⟨some 40, some 2, some 55, some 2, false⟩
      none).2.2.2.2.2.2.1 55 rfl
  · exact (esi_C4_pending_over_confirmed_over_device
      ⟨none, none, none, none, false⟩ ⟨some 40, some 2, none, none, false⟩
      none).2.2.2.2.2.2.2.1 40 rfl rfl
  · exact (esi_C4_pending_over_confirmed_over_device
      ⟨none, none, none, none, false⟩ ⟨none, none, none, none, false⟩
      none).2.2.2.2.2.2.2.2 rfl rfl

/-- C2: if performing a queued update raises an exception, the entity clears
its pending temperature and pending mode and requests a coordinator refresh;
with the pending state cleared, the getters report the last server-confirmed
values again.  Covered for the climate entity (both exception sources in the
body: an exception escaping before the send, and a failing
`async_set_work_mode` call) and for the water heater. -/
theorem esi_C2_rollback_on_failure (cst : ClimateState)
    (dev : Option DeviceRecord) (e : PyErr) (r : Except PyErr Unit)
    (wst : WaterHeaterState) (twm : Int) :
    (climateComputeRequest cst dev = .error e →
      climatePerformUpdate cst dev r = (climateClearPending cst, true))
    ∧ (∀ q, climateComputeRequest cst dev = .ok (some q) →
        climatePerformUpdate cst dev (.error e) = (climateClearPending cst, true))
    ∧ (climateClearPending cst).pending_temperature = none
    ∧ (climateClearPending cst).pending_hvac_mode = none
    ∧ (∀ t, cst.last_confirmed_temp = some t →
        climateTargetTemperature (climateClearPending cst) dev = .ok (some t))
    ∧ (∀ m, cst.last_confirmed_mode = some m →
        climateHvacMode (climateClearPending cst) dev = m)
    ∧ (wst.pending_work_mode = some twm →
        (whPerformUpdate wst (.error e)).1.pending_target_temperature = none
        ∧ (whPerformUpdate wst (.error e)).1.pending_work_mode = none
        ∧ (whPerformUpdate wst (.error e)).2.2 = true
        ∧ (∀ t, (whPerformUpdate wst (.error e)).1.last_confirmed_target_temp
              = some t →
            whTargetTemperature (whPerformUpdate wst (.error e)).1 dev
              = .ok (some t))) := by
  refine ⟨?_, ?_, rfl, rfl, ?_, ?_, ?_⟩
  · intro h
    simp [climatePerformUpdate, h]
  · intro q h
    simp [climatePerformUpdate, h]
  · intro t ht
    simp [climateTargetTemperature, climateClearPending, ht]
  · intro m hm
    simp [climateHvacMode, climateClearPending, hm]
  · intro h
    refine ⟨?_, ?_, ?_, ?_⟩
    · simp [whPerformUpdate, h, whClearPending]
    · simp [whPerformUpdate, h, whClearPending]
    · simp [whPerformUpdate, h]
    · intro t ht
      simp only [whPerformUpdate, h, whClearPending] at ht ⊢
      simp only [whTargetTemperature]
      rw [ht]

/-- Witness for C2: a failing send (`ClientError`) at a concrete climate
state with a pending write and a concrete water-heater state with a pending
manual-mode write. -/
theorem esi_C2_rollback_on_failure_witness :
    climatePerformUpdate ⟨some 19, some .auto, some 21, some .heat, false⟩ none
        (.error .clientError)
      = (climateClearPending ⟨some 19, some .auto, some 21, some .heat, false⟩,
         true)
    ∧ climateTargetTemperature
        (climateClearPending ⟨some 19, some .auto, some 21, some .heat, false⟩)
        none = .ok (some 19)
    ∧ climateHvacMode
        (climateClearPending ⟨some 19, some .auto, some 21, some .heat, false⟩)
        none = .auto
    ∧ (whPerformUpdate ⟨some 40, some 2, some 55, some 2, false⟩
        (.error .clientError)).1.pending_target_temperature = none
    ∧ (whPerformUpdate ⟨some 40, some 2, some 55, some 2, false⟩
        (.error .clientError)).1.pending_work_mode = none
    ∧ (whPerformUpdate ⟨some 40, some 2, some 55, some 2, false⟩
        (.error .clientError)).2.2 = true := by
  have h := esi_C2_rollback_on_failure
    ⟨some 19, some .auto, some 21, some .heat, false⟩ none .clientError
    (.error .clientError) ⟨some 40, some 2, some 55, some 2, false⟩ 2
  have hwh := h.2.2.2.2.2.2 rfl
  refine ⟨h.2.1 (5, some 210) ?_, h.2.2.2.2.1 19 rfl, h.2.2.2.2.2.1 .auto rfl,
    hwh.1, hwh.2.1, hwh.2.2.1⟩
  simp +decide [climateComputeRequest, HVAC_TO_WORK_MODE,
    CLIMATE_WORK_MODE_MANUAL]
  norm_num [pyInt]
  rfl

/-- C3 counterexample: a set-work-mode response with `statu: false` is NOT
treated as a write failure.  At a concrete entity state with a pending write
(pending 21.0 / HEAT over confirmed 19.0 / HEAT) and a concrete vendor
response `{"statu": false, "message": "bad"}`, `async_set_work_mode` returns
normally instead of raising, and the queued update leaves the pending state
in place — no rollback to the last-confirmed state happens, contradicting
the claim. -/
theorem esi_C3_statu_false_counterexample :
    asyncSetWorkMode (some (.str "tok"))
        ⟨200, some (.obj [("statu", .bool false), ("message", .str "bad")])⟩
      = .ok ()
    ∧ (climatePerformUpdate ⟨some 19, some .heat, some 21, some .heat, false⟩
        none
        (asyncSetWorkMode (some (.str "tok"))
          ⟨200, some (.obj [("statu", .bool false), ("message", .str "bad")])⟩)
        ).1.pending_temperature = some 21
    ∧ (climatePerformUpdate ⟨some 19, some .heat, some 21, some .heat, false⟩
        none
        (asyncSetWorkMode (some (.str "tok"))
          ⟨200, some (.obj [("statu", .bool false), ("message", .str "bad")])⟩)
        ).1.pending_hvac_mode ≠ none := by
  refine ⟨rfl, rfl, ?_⟩
  intro h
  exact Option.noConfusion h

/-- C3 amended: a set-work-mode response whose envelope has `statu` false is
only logged by `async_set_work_mode`, which returns normally; consequently
the optimistic write is treated as a success: the entity keeps its pending
state (only the mode-change flag is cleared) and requests the normal
post-write coordinator refresh — no rollback occurs. -/
theorem esi_C3_statu_false_is_logged_not_raised (tok : JVal)
    (htok : truthy tok = true) (fs : List (String × JVal))
    (_hstatu : truthy ((jLookup fs "statu").getD .null) = false)
    (st : ClimateState) (dev : Option DeviceRecord) (q : Int × Option Int)
    (hreq : climateComputeRequest st dev = .ok (some q)) :
    asyncSetWorkMode (some tok) ⟨200, some (.obj fs)⟩ = .ok ()
    ∧ climatePerformUpdate st dev
        (asyncSetWorkMode (some tok) ⟨200, some (.obj fs)⟩)
      = ({ st with is_mode_change := false }, true) := by
  have hok : asyncSetWorkMode (some tok) ⟨200, some (.obj fs)⟩ = .ok () := by
    simp only [asyncSetWorkMode, pyNotOpt, htok, coordJson, pyGetD]
    rfl
  exact ⟨hok, by simp [climatePerformUpdate, hreq, hok]⟩

/-- Witness for the amended C3 at the counterexample's concrete input. -/
theorem esi_C3_statu_false_is_logged_not_raised_witness :
    climatePerformUpdate ⟨some 19, some .heat, some 21, some .heat, false⟩ none
        (asyncSetWorkMode (some (.str "tok"))
          ⟨200, some (.obj [("statu", .bool false)])⟩)
      = (⟨some 19, some .heat, some 21, some .heat, false⟩, true) := by
  have h := (esi_C3_statu_false_is_logged_not_raised (.str "tok") rfl
    [("statu", .bool false)] rfl
    ⟨some 19, some .heat, some 21, some .heat, false⟩ none (5, some 210) ?_).2
  · exact h
  · simp +decide [climateComputeRequest, HVAC_TO_WORK_MODE,
      CLIMATE_WORK_MODE_MANUAL]
    norm_num [pyInt]
    rfl

theorem exceptBindOkEq {α β : Type} (a : α) (f : α → Except PyErr β) :
    ((.ok a : Except PyErr α) >>= f) = f a := rfl

theorem exceptBindErrorEq {α β : Type} (e : PyErr) (f : α → Except PyErr β) :
    ((.error e : Except PyErr α) >>= f) = .error e := rfl

theorem exceptThrowEq {α : Type} (e : PyErr) :
    (throw e : Except PyErr α) = .error e := rfl

theorem exceptPureEq {α : Type} (a : α) :
    (pure a : Except PyErr α) = .ok a := rfl

theorem coordJsonOk200 (v : JVal) : coordJson ⟨200, some v⟩ = .ok v := rfl


theorem asyncGetDevicesBadResponse (t : Option JVal) (dr : ApiResponse)
    (h : dr.status ≠ 200 ∨ dr.body = none) :
    ∃ e, asyncGetDevices t dr = .error e := by
  unfold asyncGetDevices
  cases hT : pyNotOpt t with
  | true => exact ⟨.valueError, by simp only [hT]; rfl⟩
  | false =>
    have hj : ∃ e, coordJson dr = .error e := by
      by_cases hs : dr.status = 200
      · rcases h with h | h
        · exact absurd hs h
        · exact ⟨.updateFailed, by simp [coordJson, hs, h]⟩
      · exact ⟨.valueError, by simp [coordJson, hs]⟩
    obtain ⟨e, he⟩ := hj
    exact ⟨e, by simp only [hT, he]; rfl⟩

/-- C5: every failure inside the coordinator's poll cycle — a non-200 HTTP
status, a response body not parseable as JSON, or a failed login — makes
`_async_update_data` raise `UpdateFailed`; on success it returns
`{"devices": <the fetched device list>}`.  The first disjunct of the first
conjunct pins the success shape; the remaining conjuncts cover each listed
failure source (stated for the device-list response; a bad login response is
the last conjunct). -/
theorem esi_C5_poll_failures_raise_update_failed (auth : CoordAuth)
    (lr dr : ApiResponse) :
    ((∃ a d, asyncUpdateData auth lr dr = .ok (a, .obj [("devices", d)])
        ∧ asyncGetDevices a.token dr = .ok d)
      ∨ asyncUpdateData auth lr dr = .error .updateFailed)
    ∧ (dr.status ≠ 200 → asyncUpdateData auth lr dr = .error .updateFailed)
    ∧ (dr.body = none → asyncUpdateData auth lr dr = .error .updateFailed)
    ∧ (pyNotOpt auth.token = true → ∀ e, asyncLogin lr = .error e →
        asyncUpdateData auth lr dr = .error .updateFailed) := by
  have hmain :
      (∃ a d, asyncUpdateData auth lr dr = .ok (a, .obj [("devices", d)])
          ∧ asyncGetDevices a.token dr = .ok d)
        ∨ asyncUpdateData auth lr dr = .error .updateFailed := by
    unfold asyncUpdateData
    cases hT : pyNotOpt auth.token with
    | false =>
      cases hG : asyncGetDevices auth.token dr with
      | ok devs => exact Or.inl ⟨auth, devs, by simp [hG], hG⟩
      | error e => exact Or.inr (by simp [hG])
    | true =>
      cases hL : asyncLogin lr with
      | error e => exact Or.inr (by simp [hL])
      | ok li =>
        cases hG : asyncGetDevices (some li.token) dr with
        | ok devs =>
          exact Or.inl ⟨⟨some li.token, some li.user_id⟩, devs,
            by simp [hL, hG], hG⟩
        | error e => exact Or.inr (by simp [hL, hG])
  refine ⟨hmain, ?_, ?_, ?_⟩
  · intro h
    rcases hmain with ⟨a, d, _, hG⟩ | hb
    · obtain ⟨e, he⟩ := asyncGetDevicesBadResponse a.token dr (Or.inl h)
      rw [he] at hG
      exact absurd hG (by simp)
    · exact hb
  · intro h
    rcases hmain with ⟨a, d, _, hG⟩ | hb
    · obtain ⟨e, he⟩ := asyncGetDevicesBadResponse a.token dr (Or.inr h)
      rw [he] at hG
      exact absurd hG (by simp)
    · exact hb
  · intro hT e hL
    unfold asyncUpdateData
    simp [hT, hL]

/-- Witness for C5: concrete poll cycles — a 500 device-list response, a
200 response with an unparseable body, and a failed login (`statu: false`)
with no stored token — each ending in `UpdateFailed`. -/
theorem esi_C5_poll_failures_raise_update_failed_witness :
    asyncUpdateData ⟨some (.str "tok"), some (.str "1")⟩ ⟨200, some (.obj [])⟩
        ⟨500, some (.obj [])⟩ = .error .updateFailed
    ∧ asyncUpdateData ⟨some (.str "tok"), some (.str "1")⟩ ⟨200, some (.obj [])⟩
        ⟨200, none⟩ = .error .updateFailed
    ∧ asyncUpdateData ⟨none, none⟩ ⟨200, some (.obj [("statu", .bool false)])⟩
        ⟨200, some (.obj [])⟩ = .error .updateFailed := by
  refine ⟨(esi_C5_poll_failures_raise_update_failed
      ⟨some (.str "tok"), some (.str "1")⟩ ⟨200, some (.obj [])⟩
      ⟨500, some (.obj [])⟩).2.1 (by decide),
    (esi_C5_poll_failures_raise_update_failed
      ⟨some (.str "tok"), some (.str "1")⟩ ⟨200, some (.obj [])⟩
      ⟨200, none⟩).2.2.1 rfl,
    (esi_C5_poll_failures_raise_update_failed ⟨none, none⟩
      ⟨200, some (.obj [("statu", .bool false)])⟩
      ⟨200, some (.obj [])⟩).2.2.2 rfl .updateFailed ?_⟩
  rfl

/-- C7: `_async_login` raises `UpdateFailed` exactly when the response lacks
a truthy `statu` or lacks a truthy token at `user.token` (the `user` field is
covered as absent or as a JSON object — the shapes the vendor envelope
documents), and otherwise stores the token and the user id
(`user.get("id", "")`); `_async_get_devices` (with a truthy token stored)
raises `UpdateFailed` exactly when the response lacks a truthy `statu` or
has no `devices` key, and otherwise returns the `devices` value unchanged. -/
theorem esi_C7_login_and_device_fetch (fs gs : List (String × JVal))
    (tok : JVal) (htok : truthy tok = true) :
    (truthy ((jLookup fs "statu").getD .null) = false →
      asyncLogin ⟨200, some (.obj fs)⟩ = .error .updateFailed)
    ∧ (jLookup fs "user" = none →
        truthy ((jLookup fs "statu").getD .null) = true →
        asyncLogin ⟨200, some (.obj fs)⟩ = .error .updateFailed)
    ∧ (∀ ufs, jLookup fs "user" = some (.obj ufs) →
        truthy ((jLookup fs "statu").getD .null) = true →
        truthy ((jLookup ufs "token").getD .null) = false →
        asyncLogin ⟨200, some (.obj fs)⟩ = .error .updateFailed)
    ∧ (∀ ufs tk, jLookup fs "user" = some (.obj ufs) →
        truthy ((jLookup fs "statu").getD .null) = true →
        jLookup ufs "token" = some tk → truthy tk = true →
        asyncLogin ⟨200, some (.obj fs)⟩
          = .ok ⟨tk, (jLookup ufs "id").getD (.str "")⟩)
    ∧ (truthy ((jLookup gs "statu").getD .null) = false →
        asyncGetDevices (some tok) ⟨200, some (.obj gs)⟩
          = .error .updateFailed)
    ∧ (truthy ((jLookup gs "statu").getD .null) = true →
        jLookup gs "devices" = none →
        asyncGetDevices (some tok) ⟨200, some (.obj gs)⟩
          = .error .updateFailed)
    ∧ (∀ ds, truthy ((jLookup gs "statu").getD .null) = true →
        jLookup gs "devices" = some ds →
        asyncGetDevices (some tok) ⟨200, some (.obj gs)⟩ = .ok ds) := by
  refine ⟨?_, ?_, ?_, ?_, ?_, ?_, ?_⟩
  · intro h
    unfold asyncLogin
    simp only [coordJsonOk200, exceptBindOkEq, pyGetD, exceptThrowEq,
      exceptPureEq, exceptBindErrorEq, h, Bool.not_false, if_true]
  · intro hu h
    unfold asyncLogin
    simp only [coordJsonOk200, exceptBindOkEq, pyGetD, hu, exceptThrowEq,
      exceptPureEq, exceptBindErrorEq, h, Bool.not_false, Bool.not_true,
      Option.getD_none, Option.getD_some]
    rfl
  · intro ufs hu h htk
    unfold asyncLogin
    simp only [coordJsonOk200, exceptBindOkEq, pyGetD, pySubscript, hu,
      exceptThrowEq, exceptPureEq, exceptBindErrorEq, h, htk, Bool.not_false,
      Bool.not_true, Option.getD_some]
    rfl
  · intro ufs tk hu h htk htrue
    unfold asyncLogin
    simp only [coordJsonOk200, exceptBindOkEq, pyGetD, pySubscript, hu, htk,
      exceptThrowEq, exceptPureEq, exceptBindErrorEq, h, htrue, Bool.not_false,
      Bool.not_true, Option.getD_some]
    rfl
  · intro h
    unfold asyncGetDevices
    simp only [pyNotOpt, htok, coordJsonOk200, exceptBindOkEq, pyGetD,
      exceptThrowEq, exceptPureEq, exceptBindErrorEq, h, Bool.not_false,
      Bool.not_true]
    rfl
  · intro h hd
    unfold asyncGetDevices
    simp only [pyNotOpt, htok, coordJsonOk200, exceptBindOkEq, pyGetD,
      jHasKey, hd, exceptThrowEq, exceptPureEq, exceptBindErrorEq, h,
      Bool.not_false, Bool.not_true, Option.isSome_none]
    rfl
  · intro ds h hd
    unfold asyncGetDevices
    simp only [pyNotOpt, htok, coordJsonOk200, exceptBindOkEq, pyGetD,
      jHasKey, pySubscript, hd, exceptThrowEq, exceptPureEq,
      exceptBindErrorEq, h, Bool.not_false, Bool.not_true, Option.isSome_some]
    rfl

/-- Witness for C7 on concrete vendor envelopes: a login rejected for
`statu: false`, a login accepted with token "abc" and user id 7, a device
fetch returning the `devices` list unchanged, and a device fetch rejected
for a missing `devices` key. -/
theorem esi_C7_login_and_device_fetch_witness :
    asyncLogin ⟨200, some (.obj [("statu", .bool false)])⟩
      = .error .updateFailed
    ∧ asyncLogin ⟨200, some (.obj [("statu", .bool true),
        ("user", .obj [("token", .str "abc"), ("id", .num 7)])])⟩
      = .ok ⟨.str "abc", .num 7⟩
    ∧ asyncGetDevices (some (.str "abc"))
        ⟨200, some (.obj [("statu", .bool true),
          ("devices", .arr [.num 1])])⟩
      = .ok (.arr [.num 1])
    ∧ asyncGetDevices (some (.str "abc"))
        ⟨200, some (.obj [("statu", .bool true)])⟩
      = .error .updateFailed := by
  refine ⟨(esi_C7_login_and_device_fetch [("statu", .bool false)] []
      (.str "abc") rfl).1 rfl,
    (esi_C7_login_and_device_fetch [("statu", .bool true),
        ("user", .obj [("token", .str "abc"), ("id", .num 7)])] []
      (.str "abc") rfl).2.2.2.1
      [("token", .str "abc"), ("id", .num 7)] (.str "abc") rfl rfl rfl rfl,
    (esi_C7_login_and_device_fetch [] [("statu", .bool true),
        ("devices", .arr [.num 1])] (.str "abc") rfl).2.2.2.2.2.2
      (.arr [.num 1]) rfl rfl,
    (esi_C7_login_and_device_fetch [] [("statu", .bool true)]
      (.str "abc") rfl).2.2.2.2.2.1 rfl rfl⟩

/-- C6: temperatures cross the vendor API in tenths of a degree.  Reading: a
parseable `inside_temparature` field is divided by 10 before
`current_temperature` reports it (the target-temperature getters divide by 10
the same way via `deviceTargetTempDiv10`).  Writing: with a pending UI
temperature `t`, the climate update sends `int(t * 10)`, and with a pending
UI temperature `u` and a manual-style pending work mode, the water-heater
update sends `int(u * 10)`. -/
theorem esi_C6_api_temperatures_are_tenths (q : ℚ) (d : DeviceRecord)
    (hq : d.inside_temparature = some (some q)) (cst : ClimateState)
    (dev : Option DeviceRecord) (t : ℚ) (m : HVACMode)
    (hpt : cst.pending_temperature = some t)
    (hpm : cst.pending_hvac_mode = some m) (wst : WaterHeaterState) (w : Int)
    (u : ℚ) (hw : wst.pending_work_mode = some w)
    (hw1 : w ≠ WATERHEATER_WORK_MODE_OFF)
    (hw2 : w ≠ WATERHEATER_WORK_MODE_AUTO)
    (hu : wst.pending_target_temperature = some u) (r : Except PyErr Unit) :
    climateCurrentTemperature (some d) = .ok (some (q / 10))
    ∧ (∃ wm, climateComputeRequest cst dev
        = .ok (some (wm, some (pyInt (t * 10)))))
    ∧ (whPerformUpdate wst r).2.1 = some (w, pyInt (u * 10)) := by
  refine ⟨?_, ?_, ?_⟩
  · simp [climateCurrentTemperature, hq]
  · unfold climateComputeRequest
    simp only [hpm, hpt, exceptBindOkEq, exceptPureEq]
    simp
  · unfold whPerformUpdate
    simp only [hw, if_neg hw1, if_neg hw2, hu]
    cases r <;> simp

/-- Witness for C6: a device reporting 185 tenths (18.5 degrees), a climate
write of 21.0 degrees sent as 210, and a water-heater write of 55.0 degrees
in manual mode (2) sent as 550. -/
theorem esi_C6_api_temperatures_are_tenths_witness :
    climateCurrentTemperature
        (some ⟨"id1", "80", some (some 185), some (some 200), some (some 5)⟩)
      = .ok (some (37 / 2))
    ∧ (∃ wm, climateComputeRequest
        ⟨some 19, some .heat, some 21, some .heat, false⟩ none
        = .ok (some (wm, some 210)))
    ∧ (whPerformUpdate ⟨some 40, some 2, some 55, some 2, false⟩
        (.ok ())).2.1 = some (2, 550) := by
  have h := esi_C6_api_temperatures_are_tenths 185
    ⟨"id1", "80", some (some 185), some (some 200), some (some 5)⟩ rfl
    ⟨some 19, some .heat, some 21, some .heat, false⟩ none 21 .heat rfl rfl
    ⟨some 40, some 2, some 55, some 2, false⟩ 2 55 rfl (by decide) (by decide)
    rfl (.ok ())
  obtain ⟨h1, ⟨wm, h2⟩, h3⟩ := h
  have e1 : (185 : ℚ) / 10 = 37 / 2 := by norm_num
  have e2 : pyInt ((21 : ℚ) * 10) = 210 := by norm_num [pyInt]
  have e3 : pyInt ((55 : ℚ) * 10) = 550 := by norm_num [pyInt]
  rw [e1] at h1
  rw [e2] at h2
  rw [e3] at h3
  exact ⟨h1, ⟨wm, h2⟩, h3⟩
